import Mathlib

/-!
Verification of the Tool Dispatch and Progress-Notification Engine of the
gemini-image-video-mcp server.

The embedding follows the source:
* `src/index.ts` — module globals (`isProcessing`, `currentOperationName`,
  `latestOutput`), `sendNotification`, `sendProgressNotification`,
  `startProgressUpdates`, `stopProgressUpdates`, and the
  `CallToolRequestSchema` handler.
* `src/constants.ts` — `ImageGenerationSchema` and the `GeminiAPIError` shape.
* `test-runner.js` (demo server part) — `registerTool`, the `toolRegistry`
  array and `SimpleMCPServer.handleRequest`.

Timer behaviour is modelled as a small-step machine over explicit events:
`start` (startProgressUpdates), `fire` (one firing of the 25-second
interval callback), `pushStatus` (the `onProgress` callback assigning
`latestOutput`), `stop` (stopProgressUpdates).  `clearInterval` is modelled
by the `cleared` flag: a cleared channel's `fire` is a no-op, which captures
that a cancelled timer's callback never runs again.
-/

namespace GeminiMCP

/-- One progress notification as observed by the client:
`notifications/progress` params `{progressToken, progress, total?, message}`. -/
structure Tick where
  token : String
  progress : Nat
  total : Option Nat
  message : String
deriving DecidableEq, Repr

/-- The module-level mutable globals of `src/index.ts` lines 35–37:
`isProcessing`, `currentOperationName`, `latestOutput`. -/
structure Globals where
  isProcessing : Bool
  currentOperationName : String
  latestOutput : String
deriving DecidableEq, Repr

/-- Per-interval state captured by the closure created in
`startProgressUpdates`: the operation name and token it closed over, the
local counters `messageIndex` and `progress`, and whether its interval has
been cleared. -/
structure ChannelState where
  operationName : String
  progressToken : Option String
  messageIndex : Nat
  progress : Nat
  cleared : Bool
deriving DecidableEq, Repr

structure EngineState where
  globals : Globals
  channels : List ChannelState
deriving DecidableEq, Repr

def initialEngineState : EngineState :=
  ⟨⟨false, "", ""⟩, []⟩

/-- The `progressMessages` array of `startProgressUpdates` (index.ts 114–120). -/
def progressMessages (operationName : String) : List String :=
  ["🎨 " ++ operationName ++ " - Preparing your creative request...",
   "⚡ " ++ operationName ++ " - Connecting to Gemini AI models...",
   "🔄 " ++ operationName ++ " - Generating content (this may take a moment)...",
   "⏳ " ++ operationName ++ " - Still processing... Quality results take time...",
   "🎯 " ++ operationName ++ " - Finalizing your media output..."]

/-- `latestOutput.slice(-100).trim()` (index.ts 139): the last (at most) 100
characters with leading and trailing whitespace removed.  Implemented over
the character list so that it is kernel-computable; JavaScript counts UTF-16
units and trims a slightly larger whitespace class, which is immaterial to
the claims. -/
def statusExcerpt (latestOutput : String) : String :=
  let lastChars := latestOutput.data.drop (latestOutput.data.length - 100)
  ⟨((lastChars.dropWhile Char.isWhitespace).reverse.dropWhile Char.isWhitespace).reverse⟩

/-- The message built by one interval firing (index.ts 138–142):
`progressMessages[messageIndex % progressMessages.length]`, with the trimmed
last-100-character excerpt of `latestOutput` appended when non-empty. -/
def tickMessage (operationName : String) (messageIndex : Nat) (latestOutput : String) : String :=
  let baseMessage :=
    (progressMessages operationName).getD (messageIndex % (progressMessages operationName).length) ""
  let outputPreview := statusExcerpt latestOutput
  if outputPreview = "" then baseMessage
  else baseMessage ++ "\n📝 Status: ..." ++ outputPreview

/-- `sendProgressNotification` with a healthy transport: nothing is sent when
the token is absent (`if (!progressToken) return`), otherwise exactly one
notification goes out. -/
def emitIfToken (progressToken : Option String) (progress : Nat) (total : Option Nat)
    (message : String) : List Tick :=
  match progressToken with
  | none => []
  | some tk => [⟨tk, progress, total, message⟩]

/-- Events driving the engine: `start` = `startProgressUpdates`,
`fire` = one firing of the interval callback of the channel with the given
index, `pushStatus` = the `onProgress` callback (`latestOutput = newOutput`),
`stop` = `stopProgressUpdates`. -/
inductive Event where
  | start (operationName : String) (progressToken : Option String)
  | fire (cid : Nat)
  | pushStatus (newOutput : String)
  | stop (cid : Nat) (success : Bool)
deriving DecidableEq, Repr

/-- `startProgressUpdates` (index.ts 106–157): sets the globals
(`isProcessing = true`, `currentOperationName`, `latestOutput = ""`), sends an
initial `0`-progress tick when a token is present, and installs a new
interval. -/
def startChannel (st : EngineState) (operationName : String)
    (progressToken : Option String) : EngineState × List Tick :=
  let globals : Globals := ⟨true, operationName, ""⟩
  let ticks :=
    match progressToken with
    | some _ => emitIfToken progressToken 0 none ("🎨 Starting " ++ operationName)
    | none => []
  (⟨globals, st.channels ++ [⟨operationName, progressToken, 0, 0, false⟩]⟩, ticks)

/-- One firing of the interval callback (index.ts 134–154).  A cleared
interval never fires.  Otherwise: if `isProcessing && progressToken`, bump
`progress`, send the rotating message (with status excerpt), bump
`messageIndex`; else if `!isProcessing`, `clearInterval` (self-cancel); else
do nothing. -/
def fireChannel (st : EngineState) (cid : Nat) : EngineState × List Tick :=
  match st.channels.get? cid with
  | none => (st, [])
  | some ch =>
    if ch.cleared then (st, [])
    else if st.globals.isProcessing && ch.progressToken.isSome then
      let progress := ch.progress + 1
      let message := tickMessage ch.operationName ch.messageIndex st.globals.latestOutput
      let ticks := emitIfToken ch.progressToken progress none message
      (⟨st.globals,
        st.channels.set cid
          ⟨ch.operationName, ch.progressToken, ch.messageIndex + 1, progress, false⟩⟩,
       ticks)
    else if !st.globals.isProcessing then
      (⟨st.globals,
        st.channels.set cid
          ⟨ch.operationName, ch.progressToken, ch.messageIndex, ch.progress, true⟩⟩,
       [])
    else (st, [])

/-- `stopProgressUpdates` (index.ts 159–176): captures the global
`currentOperationName`, resets `isProcessing` and `currentOperationName`,
clears the interval, and — when a token is present — sends the single
terminal tick `progress = 100, total = 100` with the success or failure
phrase. -/
def stopChannel (st : EngineState) (cid : Nat) (success : Bool) : EngineState × List Tick :=
  let operationName := st.globals.currentOperationName
  let globals : Globals := ⟨false, "", st.globals.latestOutput⟩
  match st.channels.get? cid with
  | none => (⟨globals, st.channels⟩, [])
  | some ch =>
    let channels :=
      st.channels.set cid
        ⟨ch.operationName, ch.progressToken, ch.messageIndex, ch.progress, true⟩
    let ticks :=
      emitIfToken ch.progressToken 100 (some 100)
        (if success then "✅ " ++ operationName ++ " completed successfully!"
         else "❌ " ++ operationName ++ " failed")
    (⟨globals, channels⟩, ticks)

def stepEngine (st : EngineState) (e : Event) : EngineState × List Tick :=
  match e with
  | .start operationName progressToken => startChannel st operationName progressToken
  | .fire cid => fireChannel st cid
  | .pushStatus newOutput =>
    (⟨⟨st.globals.isProcessing, st.globals.currentOperationName, newOutput⟩, st.channels⟩, [])
  | .stop cid success => stopChannel st cid success

def runEngine (st : EngineState) (es : List Event) : EngineState × List Tick :=
  match es with
  | [] => (st, [])
  | e :: rest =>
    let r1 := stepEngine st e
    let r2 := runEngine r1.1 rest
    (r2.1, r1.2 ++ r2.2)

/-- Values a tool's `execute` may throw, as classified by the handler's catch
block (index.ts 219–224): a `GeminiAPIError` (constants.ts 122–132, with its
optional `code`), any other `Error`, or a non-Error value. -/
inductive Thrown where
  | geminiAPIError (message : String) (code : Option String)
  | plainError (message : String)
  | nonError
deriving DecidableEq, Repr

/-- JavaScript template interpolation of a possibly-undefined `error.code`. -/
def optionCodeText (code : Option String) : String :=
  match code with
  | some c => c
  | none => "undefined"

/-- The error-message classification of the catch block (index.ts 219–224). -/
def classifyErrorMessage (e : Thrown) : String :=
  match e with
  | .geminiAPIError message code => message ++ " (" ++ optionCodeText code ++ ")"
  | .plainError message => message
  | .nonError => "Unknown error occurred"

/-- The `content[0].text` and `isError` fields of a `CallToolResult`. -/
structure ToolCallResult where
  text : String
  isError : Bool
deriving DecidableEq, Repr

/-- What the `CallToolRequestSchema` handler does: either return a result or
throw (`throw new Error(...)`, index.ts 237). -/
inductive CallOutcome where
  | ok (result : ToolCallResult)
  | thrown (message : String)
deriving DecidableEq, Repr

/-- Whether the handler raised instead of returning. -/
def CallOutcome.raised : CallOutcome → Bool
  | .ok _ => false
  | .thrown _ => true

/-- Whether the handler returned a result tagged `isError = true`. -/
def CallOutcome.isErrorResult : CallOutcome → Bool
  | .ok r => r.isError
  | .thrown _ => false

/-- Raw arguments of an image-generation call, the fields of
`ImageGenerationSchema` (constants.ts 54–61); `none` = field absent. -/
structure RawArgs where
  prompt : Option String
  model : Option String
  aspectRatio : Option String
  quality : Option String
  style : Option String
  seed : Option Int
deriving DecidableEq, Repr

def noArgs : RawArgs :=
  ⟨none, none, none, none, none, none⟩

/-- `ImageGenerationSchema` (constants.ts 54–61) as a pass/fail validator:
`prompt` required with length in 1..2000, the enum fields must lie in their
declared sets when present (zod `.default` makes absence valid), `seed`
optional integer in 0..4294967295. -/
def imageGenerationValidate (args : RawArgs) : Bool :=
  (match args.prompt with
   | some p => decide (1 ≤ p.length) && decide (p.length ≤ 2000)
   | none => false) &&
  (match args.model with
   | some m => ["nano-banana", "imagen3", "imagen4"].contains m
   | none => true) &&
  (match args.aspectRatio with
   | some a => ["1:1", "16:9", "4:3", "3:2", "2:3", "3:4", "9:16", "21:9"].contains a
   | none => true) &&
  (match args.quality with
   | some q => ["standard", "high"].contains q
   | none => true) &&
  (match args.style with
   | some s => ["natural", "artistic", "photorealistic", "cartoon", "anime"].contains s
   | none => true) &&
  (match args.seed with
   | some n => decide (0 ≤ n) && decide (n ≤ 4294967295)
   | none => true)

/-- An operation definition as consumed by the dispatcher: name, argument
validator, and an execute function returning the statuses it pushes through
`onProgress` together with its result or thrown value. -/
structure OperationDefinition where
  name : String
  validate : RawArgs → Bool
  execute : RawArgs → List String × Except Thrown String

/-- `toolExists` from `src/tools/registry.ts` as used by the handler
(index.ts 188): membership of the name in the registry. -/
def toolExists (registry : List OperationDefinition) (toolName : String) : Bool :=
  registry.any (fun op => op.name == toolName)

def resolveOp (registry : List OperationDefinition) (toolName : String) :
    Option OperationDefinition :=
  registry.find? (fun op => op.name == toolName)

/-- Modelled from the spec: `src/tools/registry.ts` is absent from the
sources (only its callers and importers are present).  Per §4.1/§4.3 of the
spec, `executeTool` resolves the operation, validates `rawArgs` against the
operation's `argumentSchema`, and only on success invokes `execute`; a
validation failure is a thrown `Error` and `execute` is not called.  Returns
(number of `execute` calls, statuses pushed via `onProgress`, outcome). -/
def executeTool (registry : List OperationDefinition) (toolName : String)
    (args : RawArgs) : Nat × List String × Except Thrown String :=
  match resolveOp registry toolName with
  | none => (0, [], Except.error (Thrown.plainError ("Unknown tool: " ++ toolName)))
  | some op =>
    if op.validate args then
      let r := op.execute args
      (1, r.1, r.2)
    else
      (0, [], Except.error (Thrown.plainError ("Invalid arguments for " ++ toolName)))

/-- `server.notification` as a fallible transport call: `transportOk` says
whether delivery succeeds this invocation. -/
def serverNotification (transportOk : Bool) (t : Tick) : Except String (List Tick) :=
  if transportOk then Except.ok [t] else Except.error "transport failure"

/-- `sendProgressNotification` (index.ts 80–104): returns immediately when
the token is absent; otherwise attempts delivery, and a transport failure is
caught and logged (`Except.error` is never propagated to the caller).  The
returned list is the set of notifications actually delivered. -/
def sendProgressNotification (transportOk : Bool) (progressToken : Option String)
    (progress : Nat) (total : Option Nat) (message : String) :
    Except String (List Tick) :=
  match progressToken with
  | none => Except.ok []
  | some tk =>
    match serverNotification transportOk ⟨tk, progress, total, message⟩ with
    | Except.ok sent => Except.ok sent
    | Except.error _ => Except.ok []

/-- `sendNotification` (index.ts 65–71): a try/catch around
`server.notification`; failures are logged, never re-raised. -/
def sendNotification (transportOk : Bool) (t : Tick) : Except String (List Tick) :=
  match serverNotification transportOk t with
  | Except.ok sent => Except.ok sent
  | Except.error _ => Except.ok []

def sentOrNone (r : Except String (List Tick)) : List Tick :=
  match r with
  | Except.ok sent => sent
  | Except.error _ => []

/-- The initial tick of `startProgressUpdates` (index.ts 125–132), as
actually delivered. -/
def startDispatchTicks (transportOk : Bool) (operationName : String)
    (progressToken : Option String) : List Tick :=
  match progressToken with
  | some _ =>
    sentOrNone (sendProgressNotification transportOk progressToken 0 none
      ("🎨 Starting " ++ operationName))
  | none => []

/-- The terminal tick of `stopProgressUpdates` (index.ts 168–175), as
actually delivered. -/
def stopDispatchTicks (transportOk : Bool) (operationName : String)
    (progressToken : Option String) (success : Bool) : List Tick :=
  match progressToken with
  | some _ =>
    sentOrNone (sendProgressNotification transportOk progressToken 100 (some 100)
      (if success then "✅ " ++ operationName ++ " completed successfully!"
       else "❌ " ++ operationName ++ " failed"))
  | none => []

/-- The observable outcome of one `CallToolRequestSchema` dispatch: the
returned/thrown outcome, the progress notifications delivered during the
call (no interval firing happens within a synchronous run), whether
`startProgressUpdates` was invoked, and how many times the operation's
`execute` ran. -/
structure DispatchOutput where
  outcome : CallOutcome
  notifications : List Tick
  channelStarted : Bool
  executeCalls : Nat
deriving DecidableEq, Repr

/-- The `CallToolRequestSchema` handler (index.ts 185–239).  If the tool
exists: start progress updates, run `executeTool`, stop progress updates with
the success flag, and return the success text or the classified error text —
the catch block converts every thrown value into an `isError = true` result.
If the tool does not exist: `throw new Error("Unknown tool: " + name)` with
no progress channel started. -/
def dispatch (transportOk : Bool) (registry : List OperationDefinition)
    (toolName : String) (args : RawArgs) (progressToken : Option String) :
    DispatchOutput :=
  if toolExists registry toolName then
    let startNotifs := startDispatchTicks transportOk toolName progressToken
    let r := executeTool registry toolName args
    match r.2.2 with
    | Except.ok result =>
      ⟨CallOutcome.ok ⟨result, false⟩,
       startNotifs ++ stopDispatchTicks transportOk toolName progressToken true,
       true, r.1⟩
    | Except.error e =>
      ⟨CallOutcome.ok ⟨"❌ Error executing " ++ toolName ++ ": " ++ classifyErrorMessage e, true⟩,
       startNotifs ++ stopDispatchTicks transportOk toolName progressToken false,
       true, r.1⟩
  else
    ⟨CallOutcome.thrown ("Unknown tool: " ++ toolName), [], false, 0⟩

/-- A demo-server tool (test-runner.js): registry semantics never inspect the
arguments, so `execute` is abstracted to its outcome — the text it returns or
the error message it throws. -/
structure DemoTool where
  name : String
  result : Except String String
deriving Repr

/-- `registerTool` (test-runner.js demo part): `toolRegistry.push(tool)` —
an unconditional append, no replacement. -/
def registerTool (toolRegistry : List DemoTool) (tool : DemoTool) : List DemoTool :=
  toolRegistry ++ [tool]

/-- The demo server's answer to a `tools/call`: either a content/isError
result or the bare `{error: ...}` object it returns for an unknown name. -/
inductive DemoResponse where
  | result (r : ToolCallResult)
  | unknownTool (message : String)
deriving DecidableEq, Repr

/-- `SimpleMCPServer.handleRequest`, `tools/call` branch (test-runner.js
412–429): `this.tools.find(t => t.name === params.name)` — the FIRST match —
then execute inside try/catch. -/
def demoHandleCall (toolRegistry : List DemoTool) (toolName : String) : DemoResponse :=
  match toolRegistry.find? (fun t => t.name == toolName) with
  | none => DemoResponse.unknownTool ("Unknown tool: " ++ toolName)
  | some tool =>
    match tool.result with
    | Except.ok r => DemoResponse.result ⟨r, false⟩
    | Except.error m => DemoResponse.result ⟨"Error: " ++ m, true⟩

/-- The catalog listing order: `tools/list` maps over `toolRegistry` in
array order (test-runner.js 399–410). -/
def demoListTools (toolRegistry : List DemoTool) : List String :=
  toolRegistry.map (fun t => t.name)

/-- Substring containment, used to state the "message contains" claims. -/
def strContains (s pat : String) : Prop :=
  ∃ a b, s = a ++ pat ++ b

/-- Whether a guarded notification call returned without raising. -/
def exceptOk (r : Except String (List Tick)) : Bool :=
  match r with
  | Except.ok _ => true
  | Except.error _ => false

/-- The canonical state of a single running invocation after `k` interval
firings: the globals as `startProgressUpdates` leaves them (with
`latestOutput` possibly updated by `onProgress`), one live channel whose two
counters both equal `k`. -/
def runningState (op : String) (tok : Option String) (latest : String) (k : Nat) :
    EngineState :=
  ⟨⟨true, op, latest⟩, [⟨op, tok, k, k, false⟩]⟩

theorem runEngine_cons (st : EngineState) (e : Event) (es : List Event) :
    runEngine st (e :: es) =
      ((runEngine (stepEngine st e).1 es).1,
        (stepEngine st e).2 ++ (runEngine (stepEngine st e).1 es).2) := rfl

theorem runEngine_append (st : EngineState) (es1 es2 : List Event) :
    runEngine st (es1 ++ es2) =
      ((runEngine (runEngine st es1).1 es2).1,
        (runEngine st es1).2 ++ (runEngine (runEngine st es1).1 es2).2) := by
  induction es1 generalizing st with
  | nil => rfl
  | cons e rest ih =>
    simp only [List.cons_append, runEngine_cons, ih, List.append_assoc]

theorem step_start_eq (st : EngineState) (op tok : String) :
    stepEngine st (Event.start op (some tok)) =
      (⟨⟨true, op, ""⟩, st.channels ++ [⟨op, some tok, 0, 0, false⟩]⟩,
       [⟨tok, 0, none, "🎨 Starting " ++ op⟩]) := rfl

theorem fire_running_eq (op tok latest : String) (k : Nat) :
    stepEngine (runningState op (some tok) latest k) (Event.fire 0) =
      (runningState op (some tok) latest (k + 1),
       [⟨tok, k + 1, none, tickMessage op k latest⟩]) := rfl

theorem stop_running_eq (op tok latest : String) (k : Nat) (success : Bool) :
    stepEngine (runningState op (some tok) latest k) (Event.stop 0 success) =
      (⟨⟨false, "", latest⟩, [⟨op, some tok, k, k, true⟩]⟩,
       [⟨tok, 100, some 100,
         if success then "✅ " ++ op ++ " completed successfully!"
         else "❌ " ++ op ++ " failed"⟩]) := rfl

/-- The trace of `n` consecutive interval firings of a single running
channel: the state counters advance by `n` and the `i`-th firing emits one
tick with progress `k + i + 1` and the rotating message at index `k + i`. -/
theorem run_fires_eq (op tok latest : String) (k n : Nat) :
    runEngine (runningState op (some tok) latest k) (List.replicate n (Event.fire 0)) =
      (runningState op (some tok) latest (k + n),
       (List.range n).map (fun i => ⟨tok, k + i + 1, none, tickMessage op (k + i) latest⟩)) := by
  induction n generalizing k with
  | zero => rfl
  | succ n ih =>
    rw [List.replicate_succ, runEngine_cons, fire_running_eq, ih (k + 1)]
    rw [show k + 1 + n = k + (n + 1) by omega]
    rw [List.range_succ_eq_map, List.map_cons, List.map_map]
    refine congrArg (Prod.mk _) ?_
    rw [List.singleton_append]
    refine congrArg₂ List.cons (by simp) ?_
    refine List.map_congr_left ?_
    intro i _
    simp only [Function.comp]
    rw [show k + 1 + i = k + (i + 1) by omega]

/-- Firing any channel never changes the module globals (the interval
callback only reads them). -/
theorem fire_globals_eq (st : EngineState) (cid : Nat) :
    (stepEngine st (Event.fire cid)).1.globals = st.globals := by
  simp only [stepEngine, fireChannel]
  cases h : st.channels.get? cid with
  | none => rfl
  | some ch =>
    simp only []
    split
    · rfl
    · split
      · rfl
      · split
        · rfl
        · rfl

/-- Once `isProcessing` is false, a firing of any channel emits no tick
(either the interval was cleared, or the callback takes the self-cancel
branch). -/
theorem fire_no_tick_of_stopped (st : EngineState) (cid : Nat)
    (h : st.globals.isProcessing = false) :
    (stepEngine st (Event.fire cid)).2 = [] := by
  simp only [stepEngine, fireChannel]
  cases hch : st.channels.get? cid with
  | none => rfl
  | some ch =>
    simp only []
    split
    · rfl
    · split
      · simp_all
      · split
        · rfl
        · rfl

/-- After the processing flag is down, an arbitrary schedule of pending
interval firings emits nothing and leaves the globals untouched. -/
theorem run_fires_stopped (st : EngineState) (post : List Nat)
    (h : st.globals.isProcessing = false) :
    (runEngine st (post.map Event.fire)).2 = [] := by
  induction post generalizing st with
  | nil => rfl
  | cons c rest ih =>
    rw [List.map_cons, runEngine_cons]
    rw [fire_no_tick_of_stopped st c h, List.nil_append]
    exact ih (stepEngine st (Event.fire c)).1 (by rw [fire_globals_eq]; exact h)

theorem stop_isProcessing_false (st : EngineState) (cid : Nat) (success : Bool) :
    (stepEngine st (Event.stop cid success)).1.globals.isProcessing = false := by
  simp only [stepEngine, stopChannel]
  cases h : st.channels.get? cid <;> rfl

theorem statusExcerpt_empty : statusExcerpt "" = "" := rfl

/-- `tickMessage` with the five-element message list length computed. -/
theorem tickMessage_eq (op : String) (i : Nat) (latest : String) :
    tickMessage op i latest =
      (if statusExcerpt latest = "" then (progressMessages op).getD (i % 5) ""
       else (progressMessages op).getD (i % 5) "" ++ "\n📝 Status: ..." ++ statusExcerpt latest) := by
  simp only [tickMessage, progressMessages, List.length_cons, List.length_nil]

theorem start_initial_eq (op tok : String) :
    stepEngine initialEngineState (Event.start op (some tok)) =
      (runningState op (some tok) "" 0, [⟨tok, 0, none, "🎨 Starting " ++ op⟩]) := rfl

theorem start_initial_none_eq (op : String) :
    stepEngine initialEngineState (Event.start op none) =
      (runningState op none "" 0, []) := rfl

theorem push_running_eq (op latest s : String) (tok : Option String) (k : Nat) :
    stepEngine (runningState op tok latest k) (Event.pushStatus s) =
      (runningState op tok s k, []) := rfl

theorem stop_running_none_eq (op latest : String) (k : Nat) (success : Bool) :
    stepEngine (runningState op none latest k) (Event.stop 0 success) =
      (⟨⟨false, "", latest⟩, [⟨op, none, k, k, true⟩]⟩, []) := rfl

/-- Claim C4: for an invocation with a correlation token, a run of `n`
interval firings followed by `stop` emits — besides the initial tick — exactly
`n` intermediate ticks and then exactly one terminal tick with
`progress = total = 100` carrying the success phrase when the operation
succeeded and the failure phrase when it faulted; and no tick at all comes
from any schedule of interval firings after `stop` (the interval is
cancelled, already-scheduled firings included). -/
theorem progress_stop_cancels_and_emits_terminal (op tok : String) (success : Bool)
    (n : Nat) (post : List Nat) :
    (runEngine initialEngineState
        (Event.start op (some tok) ::
          (List.replicate n (Event.fire 0) ++ Event.stop 0 success :: post.map Event.fire))).2 =
      ⟨tok, 0, none, "🎨 Starting " ++ op⟩ ::
        ((List.range n).map (fun i => ⟨tok, i + 1, none, tickMessage op i ""⟩) ++
          [⟨tok, 100, some 100,
            if success then "✅ " ++ op ++ " completed successfully!"
            else "❌ " ++ op ++ " failed"⟩]) := by
  rw [runEngine_cons, start_initial_eq]
  rw [runEngine_append, run_fires_eq]
  rw [runEngine_cons, stop_running_eq]
  rw [run_fires_stopped _ post rfl]
  simp [Nat.zero_add]

/-- Claim C5, counterexample: two concurrently started invocations `a` (token
"ta", channel 0) and `b` (token "tb", channel 1).  Without a stop of `a`,
channel 1's interval firing emits a tick; after `stop` of channel 0, the very
same firing of channel 1 emits nothing, and channel 1's interval gets
cancelled — stopping one invocation's channel does change the ticking
behaviour and active state of the other's. -/
theorem stop_affects_other_channel_cex :
    (stepEngine (runEngine initialEngineState
        [Event.start "a" (some "ta"), Event.start "b" (some "tb")]).1
      (Event.fire 1)).2 =
      [⟨"tb", 1, none, "🎨 b - Preparing your creative request..."⟩] ∧
    (stepEngine (runEngine initialEngineState
        [Event.start "a" (some "ta"), Event.start "b" (some "tb"),
         Event.stop 0 true]).1
      (Event.fire 1)).2 = [] ∧
    ((stepEngine (runEngine initialEngineState
        [Event.start "a" (some "ta"), Event.start "b" (some "tb"),
         Event.stop 0 true]).1
      (Event.fire 1)).1.channels.get? 1) =
      some ⟨"b", some "tb", 0, 0, true⟩ := by
  refine ⟨by decide, by decide, by decide⟩

/-- Claim C5, amended: the invocation bookkeeping lives in module-level
globals shared by all invocations, so stopping ANY invocation's channel
clears the shared `isProcessing` flag, after which a firing of ANY channel's
interval — another in-flight invocation's included — emits no tick. -/
theorem stop_suppresses_all_channels (st : EngineState) (cid : Nat) (success : Bool)
    (cid2 : Nat) :
    (stepEngine st (Event.stop cid success)).1.globals.isProcessing = false ∧
    (stepEngine (stepEngine st (Event.stop cid success)).1 (Event.fire cid2)).2 = [] := by
  exact ⟨stop_isProcessing_false st cid success,
    fire_no_tick_of_stopped _ _ (stop_isProcessing_false st cid success)⟩

/-- Claim C6: the `i`-th interval firing (so the `n`-th intermediate tick has
`i = n - 1`) carries the phase message at index `i % 5` of the fixed
five-element rotating list; when the operation has pushed a status `s`
through `onProgress`, the trimmed last-100-character excerpt of `s` is
appended ("\n📝 Status: ..." separator) whenever that excerpt is non-empty,
and when no status has been pushed the tick carries the phase message
alone. -/
theorem intermediate_tick_messages_rotate (op tok s : String) (n : Nat) :
    (runEngine initialEngineState
        (Event.start op (some tok) :: Event.pushStatus s ::
          List.replicate n (Event.fire 0))).2 =
      ⟨tok, 0, none, "🎨 Starting " ++ op⟩ ::
        (List.range n).map (fun i =>
          ⟨tok, i + 1, none,
            if statusExcerpt s = "" then (progressMessages op).getD (i % 5) ""
            else (progressMessages op).getD (i % 5) "" ++ "\n📝 Status: ..." ++
              statusExcerpt s⟩) ∧
    (runEngine initialEngineState
        (Event.start op (some tok) :: List.replicate n (Event.fire 0))).2 =
      ⟨tok, 0, none, "🎨 Starting " ++ op⟩ ::
        (List.range n).map (fun i =>
          ⟨tok, i + 1, none, (progressMessages op).getD (i % 5) ""⟩) := by
  constructor
  · rw [runEngine_cons, start_initial_eq, runEngine_cons, push_running_eq, run_fires_eq]
    simp [tickMessage_eq]
  · rw [runEngine_cons, start_initial_eq, run_fires_eq]
    simp [tickMessage_eq, statusExcerpt_empty]

/-- Interleaved interval firings and status pushes of a token-less
invocation, encoded so the statement needs no side conditions. -/
def midEvent (x : Nat ⊕ String) : Event :=
  Sum.elim (fun i => Event.fire i) (fun s => Event.pushStatus s) x

theorem mid_no_token_eq (op latest : String) (x : Nat ⊕ String) :
    (stepEngine (runningState op none latest 0) (midEvent x)).2 = [] ∧
    ∃ latest2, (stepEngine (runningState op none latest 0) (midEvent x)).1 =
      runningState op none latest2 0 := by
  cases x with
  | inl i =>
    cases i with
    | zero => exact ⟨rfl, latest, rfl⟩
    | succ j =>
      refine ⟨?_, latest, ?_⟩ <;>
        simp [midEvent, stepEngine, fireChannel, runningState, List.get?]
  | inr s => exact ⟨rfl, s, rfl⟩

theorem run_mid_no_token (op latest : String) (mid : List (Nat ⊕ String)) :
    (runEngine (runningState op none latest 0) (mid.map midEvent)).2 = [] ∧
    ∃ latest2, (runEngine (runningState op none latest 0) (mid.map midEvent)).1 =
      runningState op none latest2 0 := by
  induction mid generalizing latest with
  | nil => exact ⟨rfl, latest, rfl⟩
  | cons x rest ih =>
    rw [List.map_cons, runEngine_cons]
    obtain ⟨h1, latest2, h2⟩ := mid_no_token_eq op latest x
    rw [h1, h2, List.nil_append]
    exact ih latest2

/-- Claim C7: an invocation whose caller supplied no correlation token
transmits no progress notification at all — not at start, not from any
interleaving of interval firings and status pushes, not at stop — while the
processing flag is still raised at start and lowered at stop, and
`sendProgressNotification` itself is a no-op whenever the token is absent. -/
theorem no_token_no_notifications (op : String) (success : Bool)
    (mid : List (Nat ⊕ String)) :
    (runEngine initialEngineState
        (Event.start op none :: (mid.map midEvent ++ [Event.stop 0 success]))).2 = [] ∧
    (stepEngine initialEngineState (Event.start op none)).1.globals.isProcessing = true ∧
    (runEngine initialEngineState
        (Event.start op none ::
          (mid.map midEvent ++ [Event.stop 0 success]))).1.globals.isProcessing = false ∧
    (∀ (transportOk : Bool) (progress : Nat) (total : Option Nat) (message : String),
      sendProgressNotification transportOk none progress total message = Except.ok []) := by
  obtain ⟨h1, latest2, h2⟩ := run_mid_no_token op "" mid
  refine ⟨?_, rfl, ?_, fun _ _ _ _ => rfl⟩
  · rw [runEngine_cons, start_initial_none_eq, runEngine_append, h1, h2]
    rw [runEngine_cons, stop_running_none_eq]
    rfl
  · rw [runEngine_cons, start_initial_none_eq, runEngine_append, h2]
    rw [runEngine_cons, stop_running_none_eq]
    rfl

/-- A representative registered operation: the nano-banana image generator,
validated by `ImageGenerationSchema`. -/
def sampleImageOp : OperationDefinition :=
  ⟨"generate_image_nano_banana", imageGenerationValidate,
   fun _ => ([], Except.ok "🎨 Image Generated Successfully!")⟩

def sampleRegistry : List OperationDefinition :=
  [sampleImageOp]

/-- Arguments violating `ImageGenerationSchema`: `prompt` of length 0 against
`minLength 1`. -/
def badPromptArgs : RawArgs :=
  ⟨some "", none, none, none, none, none⟩

/-- An operation whose `execute` throws a plain failure with message
"boom". -/
def boomOp : OperationDefinition :=
  ⟨"boom_tool", fun _ => true, fun _ => ([], Except.error (Thrown.plainError "boom"))⟩

def boomRegistry : List OperationDefinition :=
  [boomOp]

theorem toolExists_of_resolve (registry : List OperationDefinition) (toolName : String)
    (op : OperationDefinition) (h : resolveOp registry toolName = some op) :
    toolExists registry toolName = true := by
  simp only [resolveOp] at h
  simp only [toolExists, List.any_eq_true]
  refine List.find?_isSome.mp ?_
  rw [h]
  rfl

/-- Claim C1, counterexample: dispatching an operation name absent from the
registry does NOT return an `isError = true` result — the handler raises
(`throw new Error("Unknown tool: " + name)`).  No progress channel is started
and no tick is emitted, but the "returns isError=true, does not raise" part
of the claim is false. -/
theorem dispatch_unknown_tool_not_isError_cex :
    (dispatch true sampleRegistry "missing_tool" noArgs (some "ctok1")).outcome.isErrorResult
      = false ∧
    (dispatch true sampleRegistry "missing_tool" noArgs (some "ctok1")).outcome.raised = true ∧
    (dispatch true sampleRegistry "missing_tool" noArgs (some "ctok1")).outcome =
      CallOutcome.thrown ("Unknown tool: " ++ "missing_tool") ∧
    (dispatch true sampleRegistry "missing_tool" noArgs (some "ctok1")).channelStarted = false ∧
    (dispatch true sampleRegistry "missing_tool" noArgs (some "ctok1")).notifications = [] := by
  refine ⟨by decide, by decide, by decide, by decide, by decide⟩

/-- Claim C1, amended: for every operation name not present in the registry,
the handler throws an `Error` whose message contains the literal name (it
does not return a result); no progress channel is started and no progress
tick is emitted for that invocation. -/
theorem dispatch_unknown_tool_raises (transportOk : Bool)
    (registry : List OperationDefinition) (toolName : String) (args : RawArgs)
    (progressToken : Option String) (h : toolExists registry toolName = false) :
    dispatch transportOk registry toolName args progressToken =
      ⟨CallOutcome.thrown ("Unknown tool: " ++ toolName), [], false, 0⟩ ∧
    strContains ("Unknown tool: " ++ toolName) toolName := by
  constructor
  · simp [dispatch, h]
  · exact ⟨"Unknown tool: ", "", by simp⟩

theorem dispatch_unknown_tool_raises_witness :
    dispatch true sampleRegistry "missing_tool" noArgs (some "wtok1") =
      ⟨CallOutcome.thrown ("Unknown tool: " ++ "missing_tool"), [], false, 0⟩ ∧
    strContains ("Unknown tool: " ++ "missing_tool") "missing_tool" :=
  dispatch_unknown_tool_raises true sampleRegistry "missing_tool" noArgs (some "wtok1")
    (by decide)

/-- Claim C2, counterexample: with `prompt = ""` against the schema's
`minLength 1`, dispatch returns `isError = true` and `execute` is never
invoked — but a progress channel IS started for the invocation
(`startProgressUpdates` runs before validation), emitting the initial tick
and a terminal failure tick. -/
theorem dispatch_validation_failure_cex :
    (dispatch true sampleRegistry "generate_image_nano_banana" badPromptArgs
        (some "ctok2")).channelStarted = true ∧
    (dispatch true sampleRegistry "generate_image_nano_banana" badPromptArgs
        (some "ctok2")).outcome.isErrorResult = true ∧
    (dispatch true sampleRegistry "generate_image_nano_banana" badPromptArgs
        (some "ctok2")).executeCalls = 0 ∧
    (dispatch true sampleRegistry "generate_image_nano_banana" badPromptArgs
        (some "ctok2")).notifications =
      [⟨"ctok2", 0, none, "🎨 Starting " ++ "generate_image_nano_banana"⟩,
       ⟨"ctok2", 100, some 100, "❌ " ++ "generate_image_nano_banana" ++ " failed"⟩] := by
  refine ⟨by decide, by decide, by decide, by decide⟩

/-- Claim C2, amended: for a registered operation and raw arguments that
violate its declared schema, dispatch returns `isError = true` and the
operation's `execute` is never invoked (call count 0) — but a progress
channel IS started for the invocation before validation runs, so the
channel's start and terminal-failure notifications are emitted (when a token
is present). -/
theorem dispatch_validation_failure_starts_channel (transportOk : Bool)
    (registry : List OperationDefinition) (toolName : String) (args : RawArgs)
    (progressToken : Option String) (op : OperationDefinition)
    (h1 : resolveOp registry toolName = some op) (h2 : op.validate args = false) :
    (dispatch transportOk registry toolName args progressToken).outcome.isErrorResult
      = true ∧
    (dispatch transportOk registry toolName args progressToken).executeCalls = 0 ∧
    (dispatch transportOk registry toolName args progressToken).channelStarted = true ∧
    (dispatch transportOk registry toolName args progressToken).notifications =
      startDispatchTicks transportOk toolName progressToken ++
        stopDispatchTicks transportOk toolName progressToken false := by
  have hex := toolExists_of_resolve registry toolName op h1
  simp only [resolveOp] at h1
  simp [dispatch, executeTool, resolveOp, hex, h1, h2, CallOutcome.isErrorResult]

theorem dispatch_validation_failure_starts_channel_witness :
    (dispatch true sampleRegistry "generate_image_nano_banana" badPromptArgs
        (some "wtok2")).outcome.isErrorResult = true ∧
    (dispatch true sampleRegistry "generate_image_nano_banana" badPromptArgs
        (some "wtok2")).executeCalls = 0 ∧
    (dispatch true sampleRegistry "generate_image_nano_banana" badPromptArgs
        (some "wtok2")).channelStarted = true ∧
    (dispatch true sampleRegistry "generate_image_nano_banana" badPromptArgs
        (some "wtok2")).notifications =
      startDispatchTicks true "generate_image_nano_banana" (some "wtok2") ++
        stopDispatchTicks true "generate_image_nano_banana" (some "wtok2") false :=
  dispatch_validation_failure_starts_channel true sampleRegistry
    "generate_image_nano_banana" badPromptArgs (some "wtok2") sampleImageOp rfl
    (by decide)

/-- Claim C3: when a registered operation's `execute` throws, dispatch
catches the cause and returns a textual `isError = true` response (it never
re-raises): the text is the classified message appended to the error prefix,
where a `GeminiAPIError` carrying a code yields its message followed by the
code in parentheses (so the text contains both), a generic `Error` yields its
message verbatim, and any non-Error thrown value yields
"Unknown error occurred". -/
theorem dispatch_execute_throw_classified (transportOk : Bool)
    (registry : List OperationDefinition) (toolName : String) (args : RawArgs)
    (progressToken : Option String) (op : OperationDefinition) (pushes : List String)
    (t : Thrown)
    (h1 : resolveOp registry toolName = some op)
    (h2 : op.validate args = true)
    (h3 : op.execute args = (pushes, Except.error t)) :
    (dispatch transportOk registry toolName args progressToken).outcome =
      CallOutcome.ok
        ⟨"❌ Error executing " ++ toolName ++ ": " ++ classifyErrorMessage t, true⟩ ∧
    (dispatch transportOk registry toolName args progressToken).outcome.raised = false ∧
    strContains ("❌ Error executing " ++ toolName ++ ": " ++ classifyErrorMessage t)
      (classifyErrorMessage t) ∧
    (∀ m c, classifyErrorMessage (Thrown.geminiAPIError m (some c)) =
        m ++ " (" ++ c ++ ")" ∧
      strContains (classifyErrorMessage (Thrown.geminiAPIError m (some c))) m ∧
      strContains (classifyErrorMessage (Thrown.geminiAPIError m (some c))) c) ∧
    (∀ m, classifyErrorMessage (Thrown.plainError m) = m) ∧
    classifyErrorMessage Thrown.nonError = "Unknown error occurred" := by
  have hex := toolExists_of_resolve registry toolName op h1
  simp only [resolveOp] at h1
  have hout : (dispatch transportOk registry toolName args progressToken).outcome =
      CallOutcome.ok
        ⟨"❌ Error executing " ++ toolName ++ ": " ++ classifyErrorMessage t, true⟩ := by
    simp [dispatch, executeTool, resolveOp, hex, h1, h2, h3]
  refine ⟨hout, by rw [hout]; rfl, ⟨"❌ Error executing " ++ toolName ++ ": ", "", by simp⟩,
    ?_, fun m => rfl, rfl⟩
  intro m c
  refine ⟨rfl, ⟨"", " (" ++ c ++ ")", ?_⟩, ⟨m ++ " (", ")", ?_⟩⟩
  · simp [classifyErrorMessage, optionCodeText, String.append_assoc]
  · simp [classifyErrorMessage, optionCodeText, String.append_assoc]

theorem dispatch_execute_throw_classified_witness :
    (dispatch true boomRegistry "boom_tool" noArgs (some "wtok3")).outcome =
      CallOutcome.ok
        ⟨"❌ Error executing " ++ "boom_tool" ++ ": " ++
          classifyErrorMessage (Thrown.plainError "boom"), true⟩ ∧
    (dispatch true boomRegistry "boom_tool" noArgs (some "wtok3")).outcome.raised = false ∧
    strContains
      ("❌ Error executing " ++ "boom_tool" ++ ": " ++
        classifyErrorMessage (Thrown.plainError "boom"))
      (classifyErrorMessage (Thrown.plainError "boom")) ∧
    (∀ m c, classifyErrorMessage (Thrown.geminiAPIError m (some c)) =
        m ++ " (" ++ c ++ ")" ∧
      strContains (classifyErrorMessage (Thrown.geminiAPIError m (some c))) m ∧
      strContains (classifyErrorMessage (Thrown.geminiAPIError m (some c))) c) ∧
    (∀ m, classifyErrorMessage (Thrown.plainError m) = m) ∧
    classifyErrorMessage Thrown.nonError = "Unknown error occurred" :=
  dispatch_execute_throw_classified true boomRegistry "boom_tool" noArgs
    (some "wtok3") boomOp [] (Thrown.plainError "boom") rfl rfl rfl

/-- Claim C10: `sendProgressNotification` and `sendNotification` never raise
to their caller — every transport failure is caught — and consequently
whether the notification transport succeeds or fails can change neither the
dispatch outcome (text and isError tag) nor whether/how often the operation
executes. -/
theorem notification_failure_never_raises_or_changes_result
    (transportOk transportOk2 : Bool) (progressToken : Option String)
    (progress : Nat) (total : Option Nat) (message : String) (t : Tick)
    (registry : List OperationDefinition) (toolName : String) (args : RawArgs)
    (callToken : Option String) :
    exceptOk (sendProgressNotification transportOk progressToken progress total message)
      = true ∧
    exceptOk (sendNotification transportOk t) = true ∧
    (dispatch transportOk registry toolName args callToken).outcome =
      (dispatch transportOk2 registry toolName args callToken).outcome ∧
    (dispatch transportOk registry toolName args callToken).executeCalls =
      (dispatch transportOk2 registry toolName args callToken).executeCalls := by
  refine ⟨?_, ?_, ?_, ?_⟩
  · cases progressToken <;> cases transportOk <;> rfl
  · cases transportOk <;> rfl
  · cases h : toolExists registry toolName
    · simp only [dispatch, h, Bool.false_eq_true, if_false]
    · simp only [dispatch, h, if_true]
      cases (executeTool registry toolName args).2.2 <;> rfl
  · cases h : toolExists registry toolName
    · simp only [dispatch, h, Bool.false_eq_true, if_false]
    · simp only [dispatch, h, if_true]
      cases (executeTool registry toolName args).2.2 <;> rfl

/-- Claim C8, counterexample: registering a second `DemoTool` under an
already-registered name does not replace the first — `tools/call` resolves
with `Array.find`, so the FIRST registration keeps winning, and the catalog
listing gains a duplicate row for the re-registered name. -/
theorem register_duplicate_first_wins_cex :
    demoHandleCall
        (registerTool (registerTool [] ⟨"dup_tool", Except.ok "first"⟩)
          ⟨"dup_tool", Except.ok "second"⟩) "dup_tool" =
      DemoResponse.result ⟨"first", false⟩ ∧
    demoListTools
        (registerTool (registerTool [] ⟨"dup_tool", Except.ok "first"⟩)
          ⟨"dup_tool", Except.ok "second"⟩) = ["dup_tool", "dup_tool"] := by
  refine ⟨by decide, by decide⟩

/-- Claim C8, amended: `registerTool` appends unconditionally and never
errors; when the name is already registered, the NEW registration is
unreachable for dispatch — resolution returns the earliest entry
(first-writer-wins) — and the catalog listing grows by one row for every
registration, duplicate names included. -/
theorem register_duplicate_appends_first_wins (toolRegistry : List DemoTool)
    (tool existing : DemoTool)
    (h : toolRegistry.find? (fun t => t.name == tool.name) = some existing) :
    registerTool toolRegistry tool = toolRegistry ++ [tool] ∧
    demoHandleCall (registerTool toolRegistry tool) tool.name =
      demoHandleCall toolRegistry tool.name ∧
    demoListTools (registerTool toolRegistry tool) =
      demoListTools toolRegistry ++ [tool.name] := by
  refine ⟨rfl, ?_, by simp [demoListTools, registerTool]⟩
  simp [demoHandleCall, registerTool, List.find?_append, h]

theorem register_duplicate_appends_first_wins_witness :
    registerTool [DemoTool.mk "wdup" (Except.ok "first")]
        (DemoTool.mk "wdup" (Except.ok "second")) =
      [DemoTool.mk "wdup" (Except.ok "first")] ++
        [DemoTool.mk "wdup" (Except.ok "second")] ∧
    demoHandleCall
        (registerTool [DemoTool.mk "wdup" (Except.ok "first")]
          (DemoTool.mk "wdup" (Except.ok "second")))
        (DemoTool.mk "wdup" (Except.ok "second")).name =
      demoHandleCall [DemoTool.mk "wdup" (Except.ok "first")]
        (DemoTool.mk "wdup" (Except.ok "second")).name ∧
    demoListTools
        (registerTool [DemoTool.mk "wdup" (Except.ok "first")]
          (DemoTool.mk "wdup" (Except.ok "second"))) =
      demoListTools [DemoTool.mk "wdup" (Except.ok "first")] ++
        [(DemoTool.mk "wdup" (Except.ok "second")).name] :=
  register_duplicate_appends_first_wins [DemoTool.mk "wdup" (Except.ok "first")]
    (DemoTool.mk "wdup" (Except.ok "second"))
    (DemoTool.mk "wdup" (Except.ok "first")) rfl

/-- Claim C9: `startProgressUpdates` resets the shared `latestOutput` buffer
to the empty string whatever it held before, so the first intermediate tick
of a fresh invocation (begun in any prior engine state, with no `onProgress`
push of its own yet) carries the bare first phase message — never a status
excerpt left over from a previous invocation. -/
theorem latest_status_reset_on_start (st : EngineState) (op tok : String) :
    (stepEngine st (Event.start op (some tok))).1.globals.latestOutput = "" ∧
    (stepEngine (stepEngine st (Event.start op (some tok))).1
        (Event.fire st.channels.length)).2 =
      [⟨tok, 1, none, (progressMessages op).getD 0 ""⟩] := by
  refine ⟨rfl, ?_⟩
  simp only [stepEngine, startChannel, fireChannel, List.getElem?_concat_length]
  simp [emitIfToken, tickMessage_eq, statusExcerpt_empty]

end GeminiMCP
